import Mathlib

/-!
Formal model of `libcacard/vreader.c`: reference-counted virtual card reader
objects, the global reader registry (a doubly linked list guarded by a global
lock), card-presence transitions with event notification, and APDU dispatch
with response truncation.

Cards, APDUs and events live in collaborator modules (`vcard.c`,
`card_7816.c`, `vevent.c`) that are outside the sources at hand; they appear
here either as parameters of the model (the `CardEnv` environment) or as
definitions explicitly marked `Modelled from the spec:`.
-/

namespace VReaderModel

/-- Status codes returned by the reader/session API (`VREADER_OK`,
`VREADER_NO_CARD`, `VREADER_OUT_OF_MEMORY`). -/
inductive VReaderStatus where
  | ok
  | noCard
  | outOfMemory
deriving DecidableEq, Repr

/-- Event kinds passed to `vevent_new` (`VEVENT_READER_INSERT`,
`VEVENT_READER_REMOVE`, `VEVENT_CARD_INSERT`, `VEVENT_CARD_REMOVE`). -/
inductive VEventType where
  | readerInsert
  | readerRemove
  | cardInsert
  | cardRemove
deriving DecidableEq, Repr

/-- `struct VReaderStruct`: a reader object. Cards are identified by a `Nat`
identity; the `lock` field is not part of the sequential state (lock/unlock
ordering is modelled separately by action traces). The opaque
`reader_private` payload is modelled by a `Nat` identity and the
`reader_private_free` function pointer by whether it is non-null. -/
structure VReaderObj where
  referenceCount : Nat
  card : Option Nat
  name : Option String
  id : Int
  readerPrivate : Nat
  hasPrivateFree : Bool
deriving DecidableEq, Repr

/-- Modelled from the spec: `vcard_reference` (in `vcard.c`, not among the
sources here) mirrors the counted-reference discipline onto cards: on the
absent card it returns absent, otherwise it returns the very same card with
its count incremented. The count bookkeeping is tracked by explicit effect
flags where a claim needs it, so on card identities the function returns its
argument. -/
def vcard_reference (card : Option Nat) : Option Nat :=
  card

/-- `vreader_new(name, private, private_free)`: a fresh reader with
`reference_count = 1`, no card, the unassigned id sentinel `(vreader_id_t)-1`,
and `name` strdup-ed when non-null (absent otherwise). -/
def vreader_new (name : Option String) (priv : Nat) (privFree : Bool) : VReaderObj :=
  { referenceCount := 1
    card := none
    name := name
    id := -1
    readerPrivate := priv
    hasPrivateFree := privFree }

/-- `vreader_reference`: NULL in, NULL out; otherwise increments the
reference count under the reader's lock and returns the same handle. -/
def vreader_reference : Option VReaderObj → Option VReaderObj
  | none => none
  | some r => some { r with referenceCount := r.referenceCount + 1 }

/-- Observable deallocation effects of `vreader_free`. -/
structure FreeEffects where
  cardFreed : Bool
  nameFreed : Bool
  privateFreeCalls : Nat
  deallocated : Bool
deriving DecidableEq, Repr

/-- The empty effect record: nothing freed, nothing called. -/
def FreeEffects.nothing : FreeEffects :=
  { cardFreed := false, nameFreed := false, privateFreeCalls := 0, deallocated := false }

/-- `vreader_free`: NULL is a no-op. Otherwise post-decrements the count
under the lock; when the old count was `> 1` only the decrement happens.
When the decrement brings the count to zero the held card reference is
released (if any), the name freed (if any), the caller-supplied
`reader_private_free` invoked (if non-null), and the reader deallocated. -/
def vreader_free : Option VReaderObj → Option VReaderObj × FreeEffects
  | none => (none, FreeEffects.nothing)
  | some r =>
    if 1 < r.referenceCount then
      (some { r with referenceCount := r.referenceCount - 1 }, FreeEffects.nothing)
    else
      (none,
        { cardFreed := r.card.isSome
          nameFreed := r.name.isSome
          privateFreeCalls := if r.hasPrivateFree then 1 else 0
          deallocated := true })

/-- `vreader_get_card`: under the reader's lock, takes a fresh counted
reference to the stored card (`vcard_reference(reader->card)`) and returns
it after unlocking. -/
def vreader_get_card (r : VReaderObj) : Option Nat :=
  vcard_reference r.card

/-- `vreader_card_is_present`: acquires a transient card reference; NULL
yields `VREADER_NO_CARD`, otherwise the reference is freed again and the
result is `VREADER_OK`. -/
def vreader_card_is_present (r : VReaderObj) : VReaderStatus :=
  match vreader_get_card r with
  | none => .noCard
  | some _ => .ok

/-- `vreader_queue_card_event`: builds and queues
`vevent_new(reader->card ? VEVENT_CARD_INSERT : VEVENT_CARD_REMOVE, reader,
reader->card)` — the emitted event kind together with the raw stored card
pointer it forwards. -/
def vreader_queue_card_event (r : VReaderObj) : VEventType × Option Nat :=
  (if r.card.isSome then .cardInsert else .cardRemove, r.card)

/-- Result of `vreader_insert_card`: the updated reader, whether a prior
card reference was released, the queued event, and the returned status. -/
structure InsertResult where
  reader : VReaderObj
  freedPriorCard : Bool
  event : VEventType × Option Nat
  status : VReaderStatus
deriving DecidableEq, Repr

/-- `vreader_insert_card(reader, card)`: under the reader's lock, frees the
previously held card reference (if any) and nulls the field, stores
`vcard_reference(card)`, unlocks, then queues the card-state event and
returns `VREADER_OK`. -/
def vreader_insert_card (r : VReaderObj) (card : Option Nat) : InsertResult :=
  let freed := r.card.isSome
  let r1 := { r with card := vcard_reference card }
  { reader := r1
    freedPriorCard := freed
    event := vreader_queue_card_event r1
    status := .ok }

/-- `VCardAPDU` (from `card_7816.c`): the parsed command object; only its
identity matters at this layer, so it carries the raw bytes it was parsed
from. -/
structure VCardAPDU where
  data : List Nat
deriving DecidableEq, Repr

/-- The card collaborator interface consumed by the dispatch and power
paths (`vcard_apdu_new`, `vcard_make_response`, `vcard_process_apdu`,
`vcard_get_atr` live in `vcard.c`/`card_7816.c`, outside these sources).
`apduNew` returns the parsed command (or none) together with the protocol
status code set through its out-parameter; `makeResponse` builds the
synthesized response bytes for a status code; `processApdu` yields the
response bytes of the card for a command (per the spec it completes
synchronously, `VCARD_DONE`, and always produces a response); `atr` is the
card's answer-to-reset byte string. -/
structure CardEnv where
  apduNew : List Nat → Option VCardAPDU × Nat
  makeResponse : Nat → List Nat
  processApdu : Nat → VCardAPDU → List Nat
  atr : List Nat

/-- Result of `vreader_xfr_bytes`: the returned status, the caller's receive
buffer contents after the call, the value written back through
`receive_buf_len`, and whether the transient card reference and the
command/response objects were released before returning. -/
structure XfrResult where
  status : VReaderStatus
  receiveBuf : List Nat
  receiveBufLen : Nat
  cardRefReleased : Bool
  apduDeleted : Bool
  responseDeleted : Bool
deriving DecidableEq, Repr

/-- `vreader_xfr_bytes(reader, send_buf, send_buf_len, receive_buf,
receive_buf_len)`: acquires a transient card reference (NULL yields
`VREADER_NO_CARD` with the caller's buffer and length untouched); parses
the send bytes with `vcard_apdu_new`; on parse failure synthesizes
`vcard_make_response(status)`, otherwise lets the card process the command;
copies `MIN(*receive_buf_len, response->b_total_len)` response bytes into
the receive buffer, writes that size back, deletes the response and the
command, frees the card reference and returns `VREADER_OK`. -/
def vreader_xfr_bytes (env : CardEnv) (reader : VReaderObj)
    (sendBuf recvBuf : List Nat) (recvLen : Nat) : XfrResult :=
  match vreader_get_card reader with
  | none =>
    { status := .noCard
      receiveBuf := recvBuf
      receiveBufLen := recvLen
      cardRefReleased := false
      apduDeleted := false
      responseDeleted := false }
  | some cid =>
    let parsed := env.apduNew sendBuf
    let response : List Nat :=
      match parsed.1 with
      | none => env.makeResponse parsed.2
      | some apdu => env.processApdu cid apdu
    let size := min recvLen response.length
    { status := .ok
      receiveBuf := response.take size ++ recvBuf.drop size
      receiveBufLen := size
      cardRefReleased := true
      apduDeleted := true
      responseDeleted := true }

/-- `VCardPower` power states passed to `vcard_reset`. -/
inductive VCardPower where
  | powerUp
  | powerDown
deriving DecidableEq, Repr

/-- Result of `vreader_reset`: status, the caller's ATR buffer contents
after the call (`none` models passing a NULL buffer), the length
out-parameter (`none` models passing a NULL pointer), and whether the
transient card reference was freed. -/
structure ResetResult where
  status : VReaderStatus
  atr : Option (List Nat)
  len : Option Nat
  cardRefReleased : Bool
deriving DecidableEq, Repr

/-- `vreader_reset(reader, power, atr, len)`: acquires a transient card
reference; NULL yields `VREADER_NO_CARD` before anything is written, so the
ATR buffer and the length output are returned untouched. Otherwise the card
is reset, and when an ATR buffer was supplied `vcard_get_atr` fills it
(Modelled from the spec: `vcard_get_atr`, outside these sources, writes the
card's ATR bytes and their length). The card reference is freed and
`VREADER_OK` returned. -/
def vreader_reset (env : CardEnv) (reader : VReaderObj) (power : VCardPower)
    (atr : Option (List Nat)) (len : Option Nat) : ResetResult :=
  match vreader_get_card reader with
  | none => { status := .noCard, atr := atr, len := len, cardRefReleased := false }
  | some _ =>
    match atr with
    | some _ =>
      { status := .ok
        atr := some env.atr
        len := some env.atr.length
        cardRefReleased := true }
    | none => { status := .ok, atr := none, len := len, cardRefReleased := true }

/-- `vreader_power_on(reader, atr, len)` = `vreader_reset(reader,
VCARD_POWER_ON, atr, len)`. -/
def vreader_power_on (env : CardEnv) (reader : VReaderObj)
    (atr : Option (List Nat)) (len : Option Nat) : ResetResult :=
  vreader_reset env reader .powerUp atr len

/-- `vreader_power_off(reader)` = `vreader_reset(reader, VCARD_POWER_OFF,
NULL, 0)`. -/
def vreader_power_off (env : CardEnv) (reader : VReaderObj) : ResetResult :=
  vreader_reset env reader .powerDown none none

/-- `vreader_reference` specialised to the non-null reader stored in a
registry entry (this is what `vreader_list_get_reader` hands back for an
entry: the same reader with its count incremented). -/
def refBump (r : VReaderObj) : VReaderObj :=
  { r with referenceCount := r.referenceCount + 1 }

/-- The scan loop of `vreader_get_reader_by_id`: walks the registry entries
in order; for each entry takes a counted reference
(`vreader_list_get_reader`), compares `creader->id` with the query, keeps
the reference and stops on the first match, and otherwise frees the
transient reference (`vreader_free`) and continues. Returns the result, the
registry contents after the scan, and the number of entries visited.
When `vreader_free` deallocates the entry's reader (impossible while the
entry holds its own reference, i.e. whenever the stored count is at least
one) the dangling entry is dropped from the scanned registry. -/
def vreader_get_reader_by_id_loop (id : Int) :
    List VReaderObj → Option VReaderObj × List VReaderObj × Nat
  | [] => (none, [], 0)
  | r :: rest =>
    let creader := refBump r
    if creader.id = id then
      (some creader, creader :: rest, 1)
    else
      match vreader_free (some creader) with
      | (some rLive, _) =>
        match vreader_get_reader_by_id_loop id rest with
        | (res, rest2, n) => (res, rLive :: rest2, n + 1)
      | (none, _) =>
        match vreader_get_reader_by_id_loop id rest with
        | (res, rest2, n) => (res, rest2, n + 1)

/-- `vreader_get_reader_by_id(id)`: the unassigned sentinel
`(vreader_id_t)-1` returns NULL immediately, before taking the registry
lock or visiting any entry; otherwise the registry is scanned in order
under the global lock. -/
def vreader_get_reader_by_id (regs : List VReaderObj) (id : Int) :
    Option VReaderObj × List VReaderObj × Nat :=
  if id = -1 then (none, regs, 0) else vreader_get_reader_by_id_loop id regs

/-- Specification-side description of the registry after a successful
by-id scan: the first reader whose id matches has its count incremented,
every other entry is unchanged. -/
def bumpFirstById (id : Int) : List VReaderObj → List VReaderObj
  | [] => []
  | r :: rest => if r.id = id then refBump r :: rest else r :: bumpFirstById id rest

/-- Specification-side count of entries a by-id scan visits: the position
of the first match (one-based), or the whole registry length when nothing
matches. -/
def scanCountById (id : Int) : List VReaderObj → Nat
  | [] => 0
  | r :: rest => if r.id = id then 1 else scanCountById id rest + 1

/-- The scan loop of `vreader_get_reader_by_name`: walks the registry in
order, takes a counted reference per entry, and evaluates
`strcmp(creader->name, name)`. When the stored name is NULL (a reader
created without a name) the `strcmp` dereferences the null pointer: the
scan faults, modelled as `Except.error`. On a match the reference is kept
and returned; otherwise the transient reference is freed (net count
unchanged) and the scan continues. -/
def vreader_get_reader_by_name_loop (name : String) :
    List VReaderObj → Except Unit (Option VReaderObj)
  | [] => .ok none
  | r :: rest =>
    let creader := refBump r
    match creader.name with
    | none => .error ()
    | some s =>
      if s = name then .ok (some creader)
      else vreader_get_reader_by_name_loop name rest

/-- `vreader_get_reader_by_name(name)`: linear scan under the global
registry lock. -/
def vreader_get_reader_by_name (regs : List VReaderObj) (name : String) :
    Except Unit (Option VReaderObj) :=
  vreader_get_reader_by_name_loop name regs

/-- Atomic actions performed by the `vreader.c` functions, in program
order: lock operations on the reader's own lock and on the global registry
lock, direct reads of the stored `reader->card` field, acquiring/releasing
a counted card reference (`vcard_reference`/`vcard_free`), passing a card
to an external call either through a held counted reference or through the
raw stored pointer, the mutations themselves, and event emission. -/
inductive TraceAction where
  | lockReader
  | unlockReader
  | lockList
  | unlockList
  | readCardRaw
  | acquireCardRef
  | releaseCardRef
  | useCardViaRef
  | useCardRaw
  | setCard (present : Bool)
  | appendEntry
  | emit (ev : VEventType)
deriving DecidableEq, Repr

/-- Action trace of `vreader_get_card`: lock, read the stored card field,
take a counted reference to it, unlock. -/
def vreader_get_card_trace : List TraceAction :=
  [.lockReader, .readCardRaw, .acquireCardRef, .unlockReader]

/-- Action trace of `vreader_card_is_present`: `vreader_get_card`, then
(when a card was present) release of the transient reference. -/
def vreader_card_is_present_trace (card : Option Nat) : List TraceAction :=
  vreader_get_card_trace ++ (if card.isSome then [.releaseCardRef] else [])

/-- Action trace of `vreader_reset` (hence of `vreader_power_on` /
`vreader_power_off`): `vreader_get_card`; when a card is present, the reset
call through the counted reference, the optional `vcard_get_atr` call, and
the release of the transient reference. -/
def vreader_reset_trace (card : Option Nat) (atrRequested : Bool) : List TraceAction :=
  vreader_get_card_trace ++
    (if card.isSome then
      [.useCardViaRef] ++ (if atrRequested then [.useCardViaRef] else []) ++
        [.releaseCardRef]
    else [])

/-- Action trace of `vreader_xfr_bytes`: `vreader_get_card`; with a card
present, `vcard_process_apdu` through the counted reference when the send
bytes parsed (a parse failure synthesizes the response without touching the
card), then release of the transient reference. -/
def vreader_xfr_bytes_trace (card : Option Nat) (parseOk : Bool) : List TraceAction :=
  vreader_get_card_trace ++
    (if card.isSome then
      (if parseOk then [.useCardViaRef] else []) ++ [.releaseCardRef]
    else [])

/-- Action trace of `vreader_queue_card_event`: reads `reader->card` twice
(once for the `?:` condition, once as the `vevent_new` argument) with no
lock held and no reference taken, forwards the raw pointer into the event
when a card is present, and emits the event. -/
def vreader_queue_card_event_trace (card : Option Nat) : List TraceAction :=
  [.readCardRaw, .readCardRaw] ++
    (if card.isSome then [.useCardRaw] else []) ++
    [.emit (if card.isSome then .cardInsert else .cardRemove)]

/-- Action trace of `vreader_insert_card`: lock, read the stored card,
release-and-null the prior reference when present, store
`vcard_reference(card)`, unlock, then `vreader_queue_card_event`. -/
def vreader_insert_card_trace (oldCard newCard : Option Nat) : List TraceAction :=
  [.lockReader, .readCardRaw] ++
    (if oldCard.isSome then [.releaseCardRef, .setCard false] else []) ++
    [.setCard (vcard_reference newCard).isSome, .unlockReader] ++
    vreader_queue_card_event_trace (vcard_reference newCard)

/-- Action trace of `vreader_add_reader`: `vreader_list_entry_new` takes a
counted reader reference (under the reader's lock), then the entry is
appended under the registry lock, the lock released, and the
reader-inserted event emitted. -/
def vreader_add_reader_trace : List TraceAction :=
  [.lockReader, .unlockReader, .lockList, .appendEntry, .unlockList,
    .emit .readerInsert]

/-- The card-access discipline, tracking the reader-lock depth: reading the
stored `reader->card` field or passing the raw stored pointer to an
external call is admissible only while the reader's lock is held; uses
after unlock must go through a counted reference acquired under the lock. -/
def disciplinedFrom (d : Nat) : List TraceAction → Bool
  | [] => true
  | .lockReader :: rest => disciplinedFrom (d + 1) rest
  | .unlockReader :: rest => disciplinedFrom (d - 1) rest
  | .readCardRaw :: rest => decide (0 < d) && disciplinedFrom d rest
  | .useCardRaw :: rest => decide (0 < d) && disciplinedFrom d rest
  | _ :: rest => disciplinedFrom d rest

/-- A whole function trace is disciplined when it is disciplined starting
with the reader's lock free. -/
def cardAccessDisciplined (t : List TraceAction) : Bool :=
  disciplinedFrom 0 t

/-- The state an event observer can query: both locks, card presence on the
reader, and whether the reader has been linked into the registry. -/
structure ObsState where
  readerLocked : Bool
  listLocked : Bool
  cardPresent : Bool
  readerRegistered : Bool
deriving DecidableEq, Repr

/-- Effect of one action on the observable state. -/
def stepAction (s : ObsState) : TraceAction → ObsState
  | .lockReader => { s with readerLocked := true }
  | .unlockReader => { s with readerLocked := false }
  | .lockList => { s with listLocked := true }
  | .unlockList => { s with listLocked := false }
  | .setCard b => { s with cardPresent := b }
  | .appendEntry => { s with readerRegistered := true }
  | _ => s

/-- The events a trace emits, each paired with the observable state at the
moment of emission (the state an observer reacting to the event sees). -/
def emitStates (s : ObsState) : List TraceAction → List (VEventType × ObsState)
  | [] => []
  | a :: rest =>
    let s1 := stepAction s a
    match a with
    | .emit ev => (ev, s1) :: emitStates s1 rest
    | _ => emitStates s1 rest

/-- `struct VReaderListEntryStruct`: a registry link node with `next` and
`prev` pointers (addresses, `none` = NULL) and the identity of the reader
whose counted reference it owns. -/
structure VListEntry where
  next : Option Nat
  prev : Option Nat
  reader : Nat
deriving DecidableEq, Repr

/-- The entry heap: live link nodes, addressed by `Nat`. A missing address
is freed (or never allocated) memory. -/
abbrev EntryHeap : Type :=
  List (Nat × VListEntry)

/-- Read the entry at an address; `none` when the address is dangling. -/
def heapGet : EntryHeap → Nat → Option VListEntry
  | [], _ => none
  | (b, e) :: rest, a => if b = a then some e else heapGet rest a

/-- Overwrite the entry at an (allocated) address. -/
def heapSet : EntryHeap → Nat → VListEntry → EntryHeap
  | [], _, _ => []
  | (b, e) :: rest, a, e2 =>
    if b = a then (b, e2) :: rest else (b, e) :: heapSet rest a e2

/-- Allocate a fresh address. -/
def heapAlloc (h : EntryHeap) (a : Nat) (e : VListEntry) : EntryHeap :=
  h ++ [(a, e)]

/-- Free the entry at an address (`qemu_free` in
`vreader_list_entry_delete`). -/
def heapFree : EntryHeap → Nat → EntryHeap
  | [], _ => []
  | (b, e) :: rest, a => if b = a then heapFree rest a else (b, e) :: heapFree rest a

/-- `struct VReaderListStruct`: head and tail pointers of the registry
list. -/
structure VList where
  head : Option Nat
  tail : Option Nat
deriving DecidableEq, Repr

/-- The global registry state: the list header, the entry heap, and the
next fresh address for allocation. -/
structure RegState where
  list : VList
  heap : EntryHeap
  nextAddr : Nat
deriving DecidableEq, Repr

/-- The registry right after `vreader_list_init`: empty list, no entries. -/
def regInit : RegState :=
  { list := { head := none, tail := none }, heap := [], nextAddr := 0 }

/-- `vreader_queue(list, entry)`: NULL entry is a no-op; otherwise sets
`entry->next = NULL`, `entry->prev = list->tail`, links the old tail's
`next` to the entry when the list was non-empty (else makes it the head),
and makes it the new tail. -/
def vreader_queue (st : RegState) (entry : Option Nat) : RegState :=
  match entry with
  | none => st
  | some a =>
    match heapGet st.heap a with
    | none => st
    | some e =>
      let h1 := heapSet st.heap a { e with next := none, prev := st.list.tail }
      if st.list.head.isSome then
        match st.list.tail with
        | some t =>
          let h2 :=
            match heapGet h1 t with
            | some te => heapSet h1 t { te with next := some a }
            | none => h1
          { st with heap := h2, list := { head := st.list.head, tail := some a } }
        | none => st
      else
        { st with heap := h1, list := { head := some a, tail := some a } }

/-- `vreader_dequeue(list, entry)`: NULL entry is a no-op. Otherwise, as
written in the source: when `entry->next` is NULL only `list->tail` is
moved to `entry->prev`; when `entry->prev` is NULL only `list->head` is
moved to `entry->next`; only when both neighbours exist are their links
redirected. Then, when head or tail became NULL both are cleared, and the
entry's own links are nulled. -/
def vreader_dequeue (st : RegState) (entry : Option Nat) : RegState :=
  match entry with
  | none => st
  | some a =>
    match heapGet st.heap a with
    | none => st
    | some e =>
      let st1 : RegState :=
        match e.next, e.prev with
        | none, _ => { st with list := { st.list with tail := e.prev } }
        | some nx, none => { st with list := { st.list with head := some nx } }
        | some nx, some pv =>
          let h1 :=
            match heapGet st.heap pv with
            | some pe => heapSet st.heap pv { pe with next := some nx }
            | none => st.heap
          let h2 :=
            match heapGet h1 nx with
            | some ne => heapSet h1 nx { ne with prev := some pv }
            | none => h1
          { st with heap := h2 }
      let st2 : RegState :=
        if st1.list.tail = none ∨ st1.list.head = none then
          { st1 with list := { head := none, tail := none } }
        else st1
      match heapGet st2.heap a with
      | some e2 => { st2 with heap := heapSet st2.heap a { e2 with next := none, prev := none } }
      | none => st2

/-- `vreader_add_reader(reader)`: allocates a registry entry holding a
counted reference to the reader (`vreader_list_entry_new`), appends it at
the tail under the registry lock, and emits the reader-inserted event after
unlocking. -/
def vreader_add_reader (st : RegState) (reader : Nat) : RegState × VEventType :=
  let a := st.nextAddr
  let st1 : RegState :=
    { st with
        heap := heapAlloc st.heap a { next := none, prev := none, reader := reader }
        nextAddr := a + 1 }
  (vreader_queue st1 (some a), .readerInsert)

/-- The removal scan of `vreader_remove_reader`: walks the entries from the
head comparing the stored reader identity, yielding the address of the
matching entry (or `none` when the scan falls off the list). Fuel bounds
the walk; a dangling link also ends it. -/
def findEntryAux (h : EntryHeap) (reader : Nat) : Option Nat → Nat → Option Nat
  | _, 0 => none
  | none, _ => none
  | some a, fuel + 1 =>
    match heapGet h a with
    | none => none
    | some e => if e.reader = reader then some a else findEntryAux h reader e.next fuel

/-- `vreader_remove_reader(reader)`: under the registry lock scans for the
entry holding this reader, dequeues it (a failed scan dequeues NULL, a
no-op), unlocks, deletes the entry (`vreader_list_entry_delete`: releasing
its reader reference and freeing the node), and emits the reader-removed
event. -/
def vreader_remove_reader (st : RegState) (reader : Nat) : RegState × VEventType :=
  let found := findEntryAux st.heap reader st.list.head (st.heap.length + 1)
  let st1 := vreader_dequeue st found
  let st2 : RegState :=
    match found with
    | some a => { st1 with heap := heapFree st1.heap a }
    | none => st1
  (st2, .readerRemove)

/-- Forward traversal of the registry (the walk `vreader_copy_list` and the
lookup scans perform via `vreader_list_get_first`/`vreader_list_get_next`),
collecting the stored reader identities. Following a pointer to freed
memory is a memory fault, modelled as `none`; fuel bounds the walk. -/
def snapshotAux (h : EntryHeap) : Option Nat → Nat → Option (List Nat)
  | none, _ => some []
  | some _, 0 => none
  | some a, fuel + 1 =>
    match heapGet h a with
    | none => none
    | some e => (snapshotAux h e.next fuel).map (fun l => e.reader :: l)

/-- `vreader_get_reader_list()`: under the registry lock copies the live
list into an independent snapshot; its contents are the forward traversal
from the head. -/
def vreader_get_reader_list (st : RegState) : Option (List Nat) :=
  snapshotAux st.heap st.list.head (st.heap.length + 1)

/-- The two-reader scenario: add reader `10`, then reader `20` (entries at
addresses 0 and 1). -/
def regAB : RegState :=
  (vreader_add_reader (vreader_add_reader regInit 10).1 20).1

/-- A concrete card environment: `[0]` parses as a command answered by four
bytes, anything else fails to parse with protocol status `0x6700`;
synthesized responses carry the status code big-endian. -/
def envW : CardEnv :=
  { apduNew := fun l => if l = [0] then (some { data := l }, 0x9000) else (none, 0x6700)
    makeResponse := fun s => [s / 256 % 256, s % 256]
    processApdu := fun _ _ => [1, 2, 3, 4]
    atr := [59, 0] }

/-- A concrete three-reader registry: an unmatched reader, then two readers
with id 5 (so lookup must return the first of them). -/
def regsW : List VReaderObj :=
  [vreader_new (some "a") 0 false,
    { vreader_new (some "b") 1 false with id := 5 },
    { vreader_new (some "c") 2 true with id := 5, referenceCount := 3 }]

/-- A one-reader registry whose reader was created without a name. -/
def regsNoName : List VReaderObj :=
  [vreader_new none 0 false]

/- ------------------------------------------------------------------ -/
/- Theorems                                                           -/
/- ------------------------------------------------------------------ -/

/-- Releasing the transient reference taken on a live registry reader
(count at least one) undoes exactly the increment and deallocates
nothing. -/
theorem vreader_free_refBump (r : VReaderObj) (h : 1 ≤ r.referenceCount) :
    vreader_free (some (refBump r)) = (some r, FreeEffects.nothing) := by
  have h1 : 1 < (refBump r).referenceCount := Nat.lt_succ_of_le h
  show (if 1 < (refBump r).referenceCount then _ else _) = _
  rw [if_pos h1]
  rfl

/-- Claim C5: on a reader with no inserted card, `vreader_power_on` returns
`VREADER_NO_CARD` and leaves the caller's ATR buffer and length output
unchanged, and `vreader_xfr_bytes` returns `VREADER_NO_CARD` and leaves the
receive buffer and its length output unchanged. -/
theorem vreader_no_card_outputs_untouched (env : CardEnv) (r : VReaderObj)
    (atrBuf : List Nat) (lenIn : Nat) (send recv : List Nat) (cap : Nat) :
    vreader_power_on env { r with card := none } (some atrBuf) (some lenIn) =
      { status := .noCard, atr := some atrBuf, len := some lenIn,
        cardRefReleased := false } ∧
    vreader_xfr_bytes env { r with card := none } send recv cap =
      { status := .noCard, receiveBuf := recv, receiveBufLen := cap,
        cardRefReleased := false, apduDeleted := false,
        responseDeleted := false } :=
  ⟨rfl, rfl⟩

/-- Claim C6: `vreader_reference` on NULL is a no-op returning NULL and
otherwise increments the count by one on the same handle;
`vreader_free` on NULL is a no-op, a release leaving a positive count only
decrements, and the release that brings the count to zero frees the held
card reference (if any), frees the name (if any), calls the supplied
private-data release function exactly once, and deallocates the reader. -/
theorem vreader_reference_free_contract (r : VReaderObj) (n : Nat) :
    vreader_reference none = none ∧
    vreader_reference (some r) =
      some { r with referenceCount := r.referenceCount + 1 } ∧
    vreader_free none = (none, FreeEffects.nothing) ∧
    vreader_free (some { r with referenceCount := n + 2 }) =
      (some { r with referenceCount := n + 1 }, FreeEffects.nothing) ∧
    vreader_free (some { r with referenceCount := 1 }) =
      (none,
        { cardFreed := r.card.isSome
          nameFreed := r.name.isSome
          privateFreeCalls := if r.hasPrivateFree then 1 else 0
          deallocated := true }) ∧
    (vreader_free (some { r with referenceCount := 1, hasPrivateFree := true })).2.privateFreeCalls = 1 := by
  refine ⟨rfl, rfl, rfl, ?_, rfl, rfl⟩
  show (if 1 < ({ r with referenceCount := n + 2 } : VReaderObj).referenceCount then _ else _) = _
  rw [if_pos (by show 1 < n + 2; omega)]
  rfl

/-- Claim C7: `vreader_insert_card(reader, NULL)` twice in a row is
idempotent — both calls queue a card-removed event and return `VREADER_OK`,
after each call the stored card is absent and `vreader_card_is_present`
reports `VREADER_NO_CARD`, and the second call finds no prior card
reference to release. -/
theorem vreader_insert_card_absent_idempotent (r : VReaderObj) :
    (vreader_insert_card r none).event = (.cardRemove, none) ∧
    (vreader_insert_card (vreader_insert_card r none).reader none).event =
      (.cardRemove, none) ∧
    (vreader_insert_card r none).status = .ok ∧
    (vreader_insert_card (vreader_insert_card r none).reader none).status = .ok ∧
    vreader_card_is_present (vreader_insert_card r none).reader = .noCard ∧
    vreader_card_is_present
      (vreader_insert_card (vreader_insert_card r none).reader none).reader = .noCard ∧
    (vreader_insert_card r none).reader.card = none ∧
    (vreader_insert_card (vreader_insert_card r none).reader none).reader.card = none ∧
    (vreader_insert_card (vreader_insert_card r none).reader none).freedPriorCard = false :=
  ⟨rfl, rfl, rfl, rfl, rfl, rfl, rfl, rfl, rfl⟩

/-- Claim C2 (counterexample): `vreader_queue_card_event` — the card-state
event primitive named by the claim — fails the counted-reference
discipline at every card state: it reads and forwards the raw stored
`reader->card` pointer with the reader's lock not held and no reference
acquired, refuting the claim that every card use of this layer after
unlock goes through a freshly acquired counted reference. -/
theorem vreader_queue_card_event_undisciplined :
    cardAccessDisciplined (vreader_queue_card_event_trace (some 0)) = false ∧
    cardAccessDisciplined (vreader_queue_card_event_trace none) = false := by
  decide

/-- Claim C2 (amended): every card-session operation of the layer that uses
a reader's card after releasing the reader's lock — `vreader_get_card`,
`vreader_card_is_present`, `vreader_reset` (hence power on/off),
`vreader_xfr_bytes` — does so only through a counted reference acquired
under that lock; `vreader_queue_card_event` is the exception: it inspects
and forwards the raw stored card pointer with no lock held and no
reference. -/
theorem vreader_card_access_discipline (c : Option Nat) (atrRequested parseOk : Bool) :
    cardAccessDisciplined vreader_get_card_trace = true ∧
    cardAccessDisciplined (vreader_card_is_present_trace c) = true ∧
    cardAccessDisciplined (vreader_reset_trace c atrRequested) = true ∧
    cardAccessDisciplined (vreader_xfr_bytes_trace c parseOk) = true ∧
    cardAccessDisciplined (vreader_queue_card_event_trace c) = false := by
  cases c <;> cases atrRequested <;> cases parseOk <;>
    exact ⟨rfl, rfl, rfl, rfl, rfl⟩

/-- Claim C9: in `vreader_add_reader` and `vreader_insert_card` the event
describing the mutation is emitted exactly once, strictly after the
protecting lock has been released and with the mutation already applied:
at the emission point the registry lock (resp. the reader's lock) is free,
the reader is linked (resp. the stored card equals the new card), so an
observer reacting to the event and immediately querying state sees the new
state. -/
theorem vreader_event_after_unlock (s : ObsState) (oldCard newCard : Option Nat) :
    emitStates s vreader_add_reader_trace =
      [(.readerInsert,
        { s with readerLocked := false, listLocked := false,
                 readerRegistered := true })] ∧
    emitStates s (vreader_insert_card_trace oldCard newCard) =
      [(if newCard.isSome then VEventType.cardInsert else VEventType.cardRemove,
        { s with readerLocked := false, cardPresent := newCard.isSome })] := by
  cases oldCard <;> cases newCard <;> exact ⟨rfl, rfl⟩

/-- Claim C1 (the code evaluated at the failing input): after adding
readers `10` and `20`, the snapshot sees both; `vreader_remove_reader 20`
(removing the tail entry) leaves the predecessor's `next` pointer aimed at
the freed entry, so the subsequent snapshot walks into freed memory
(a memory fault, `none`) instead of yielding `[10]` as the claim requires;
and already after the raw `vreader_dequeue` of the tail entry — before the
entry is freed — the forward traversal still yields the removed reader
`20`. -/
theorem vreader_remove_tail_dangling :
    vreader_get_reader_list regAB = some [10, 20] ∧
    vreader_get_reader_list (vreader_remove_reader regAB 20).1 = none ∧
    vreader_get_reader_list (vreader_remove_reader regAB 20).1 ≠ some [10] ∧
    snapshotAux (vreader_dequeue regAB (some 1)).heap
      (vreader_dequeue regAB (some 1)).list.head 3 = some [10, 20] := by
  decide

/-- Claim C3: a transmit on a reader with a card, whose send bytes parse as
a command, returns exactly `min(c, r)` bytes (`c` the receive capacity,
`r` the response's natural length) that are a byte-for-byte prefix of the
card's response, writes `min(c, r)` back through the length output,
returns `VREADER_OK` (the status type has no distinct truncated value),
and has released the transient card reference and deleted the command and
response objects on return. -/
theorem vreader_xfr_bytes_truncation (env : CardEnv) (r : VReaderObj) (cid : Nat)
    (send recv : List Nat) (cap : Nat) (apdu : VCardAPDU) (st : Nat)
    (hparse : env.apduNew send = (some apdu, st)) :
    (vreader_xfr_bytes env { r with card := some cid } send recv cap).status = .ok ∧
    (vreader_xfr_bytes env { r with card := some cid } send recv cap).receiveBufLen =
      min cap (env.processApdu cid apdu).length ∧
    (vreader_xfr_bytes env { r with card := some cid } send recv cap).receiveBuf.take
        (min cap (env.processApdu cid apdu).length) =
      (env.processApdu cid apdu).take (min cap (env.processApdu cid apdu).length) ∧
    (vreader_xfr_bytes env { r with card := some cid } send recv cap).cardRefReleased = true ∧
    (vreader_xfr_bytes env { r with card := some cid } send recv cap).apduDeleted = true ∧
    (vreader_xfr_bytes env { r with card := some cid } send recv cap).responseDeleted = true := by
  have hres : vreader_xfr_bytes env { r with card := some cid } send recv cap =
      { status := .ok
        receiveBuf := (env.processApdu cid apdu).take (min cap (env.processApdu cid apdu).length)
          ++ recv.drop (min cap (env.processApdu cid apdu).length)
        receiveBufLen := min cap (env.processApdu cid apdu).length
        cardRefReleased := true
        apduDeleted := true
        responseDeleted := true } := by
    unfold vreader_xfr_bytes
    rw [show vreader_get_card { r with card := some cid } = some cid from rfl]
    rw [hparse]
  rw [hres]
  refine ⟨rfl, rfl, ?_, rfl, rfl, rfl⟩
  have hlen : ((env.processApdu cid apdu).take
      (min cap (env.processApdu cid apdu).length)).length =
      min cap (env.processApdu cid apdu).length := by
    rw [List.length_take]
    exact Nat.min_eq_left (Nat.min_le_right _ _)
  exact List.take_left' hlen

/-- Claim C4: a transmit on a reader with a card, whose send bytes fail to
parse, does not abort and does not surface an error status: the synthesized
response `vcard_make_response(status)` carrying the parser's protocol
status code is truncated by the same `min(c, r)` rule and returned through
the normal `VREADER_OK` path, with the card reference and the
command/response objects released. -/
theorem vreader_xfr_bytes_parse_failure (env : CardEnv) (r : VReaderObj) (cid : Nat)
    (send recv : List Nat) (cap st : Nat)
    (hparse : env.apduNew send = (none, st)) :
    (vreader_xfr_bytes env { r with card := some cid } send recv cap).status = .ok ∧
    (vreader_xfr_bytes env { r with card := some cid } send recv cap).receiveBufLen =
      min cap (env.makeResponse st).length ∧
    (vreader_xfr_bytes env { r with card := some cid } send recv cap).receiveBuf.take
        (min cap (env.makeResponse st).length) =
      (env.makeResponse st).take (min cap (env.makeResponse st).length) ∧
    (vreader_xfr_bytes env { r with card := some cid } send recv cap).cardRefReleased = true ∧
    (vreader_xfr_bytes env { r with card := some cid } send recv cap).apduDeleted = true ∧
    (vreader_xfr_bytes env { r with card := some cid } send recv cap).responseDeleted = true := by
  have hres : vreader_xfr_bytes env { r with card := some cid } send recv cap =
      { status := .ok
        receiveBuf := (env.makeResponse st).take (min cap (env.makeResponse st).length)
          ++ recv.drop (min cap (env.makeResponse st).length)
        receiveBufLen := min cap (env.makeResponse st).length
        cardRefReleased := true
        apduDeleted := true
        responseDeleted := true } := by
    unfold vreader_xfr_bytes
    rw [show vreader_get_card { r with card := some cid } = some cid from rfl]
    rw [hparse]
  rw [hres]
  refine ⟨rfl, rfl, ?_, rfl, rfl, rfl⟩
  have hlen : ((env.makeResponse st).take (min cap (env.makeResponse st).length)).length =
      min cap (env.makeResponse st).length := by
    rw [List.length_take]
    exact Nat.min_eq_left (Nat.min_le_right _ _)
  exact List.take_left' hlen

/-- Claim C3 witness: in the concrete environment `envW` the command `[0]`
parses and the card answers `[1, 2, 3, 4]`; a capacity-2 receive buffer
gets exactly the 2-byte prefix. -/
theorem vreader_xfr_bytes_truncation_witness :
    envW.apduNew [0] = (some { data := [0] }, 0x9000) ∧
    ((vreader_xfr_bytes envW { vreader_new none 0 false with card := some 7 }
        [0] [9, 9, 9] 2).status = .ok ∧
      (vreader_xfr_bytes envW { vreader_new none 0 false with card := some 7 }
          [0] [9, 9, 9] 2).receiveBufLen =
        min 2 (envW.processApdu 7 { data := [0] }).length ∧
      (vreader_xfr_bytes envW { vreader_new none 0 false with card := some 7 }
            [0] [9, 9, 9] 2).receiveBuf.take
          (min 2 (envW.processApdu 7 { data := [0] }).length) =
        (envW.processApdu 7 { data := [0] }).take
          (min 2 (envW.processApdu 7 { data := [0] }).length) ∧
      (vreader_xfr_bytes envW { vreader_new none 0 false with card := some 7 }
          [0] [9, 9, 9] 2).cardRefReleased = true ∧
      (vreader_xfr_bytes envW { vreader_new none 0 false with card := some 7 }
          [0] [9, 9, 9] 2).apduDeleted = true ∧
      (vreader_xfr_bytes envW { vreader_new none 0 false with card := some 7 }
          [0] [9, 9, 9] 2).responseDeleted = true) :=
  ⟨by decide,
    vreader_xfr_bytes_truncation envW (vreader_new none 0 false) 7 [0] [9, 9, 9] 2
      { data := [0] } 0x9000 (by decide)⟩

/-- Claim C4 witness: in `envW` the send bytes `[1]` fail to parse with
protocol status `0x6700`; the synthesized 2-byte response `[0x67, 0]` is
truncated to the capacity-1 buffer and returned through the OK path. -/
theorem vreader_xfr_bytes_parse_failure_witness :
    envW.apduNew [1] = (none, 0x6700) ∧
    ((vreader_xfr_bytes envW { vreader_new none 0 false with card := some 7 }
        [1] [9, 9] 1).status = .ok ∧
      (vreader_xfr_bytes envW { vreader_new none 0 false with card := some 7 }
          [1] [9, 9] 1).receiveBufLen =
        min 1 (envW.makeResponse 0x6700).length ∧
      (vreader_xfr_bytes envW { vreader_new none 0 false with card := some 7 }
            [1] [9, 9] 1).receiveBuf.take (min 1 (envW.makeResponse 0x6700).length) =
        (envW.makeResponse 0x6700).take (min 1 (envW.makeResponse 0x6700).length) ∧
      (vreader_xfr_bytes envW { vreader_new none 0 false with card := some 7 }
          [1] [9, 9] 1).cardRefReleased = true ∧
      (vreader_xfr_bytes envW { vreader_new none 0 false with card := some 7 }
          [1] [9, 9] 1).apduDeleted = true ∧
      (vreader_xfr_bytes envW { vreader_new none 0 false with card := some 7 }
          [1] [9, 9] 1).responseDeleted = true) :=
  ⟨by decide,
    vreader_xfr_bytes_parse_failure envW (vreader_new none 0 false) 7 [1] [9, 9] 1
      0x6700 (by decide)⟩

/-- The by-id scan on a registry whose entries all hold a live reference
(count at least one) returns the first matching reader freshly referenced,
leaves every other entry's count unchanged, and visits exactly the entries
up to and including the first match. -/
theorem vreader_get_reader_by_id_loop_spec : ∀ (regs : List VReaderObj) (id : Int),
    (∀ r ∈ regs, 1 ≤ r.referenceCount) →
    vreader_get_reader_by_id_loop id regs =
      ((regs.find? fun r => decide (r.id = id)).map refBump,
        bumpFirstById id regs, scanCountById id regs) := by
  intro regs id
  induction regs with
  | nil => intro _; rfl
  | cons r rest ih =>
    intro hcount
    have hr : 1 ≤ r.referenceCount := hcount r (List.mem_cons_self r rest)
    have hrest : ∀ x ∈ rest, 1 ≤ x.referenceCount :=
      fun x hx => hcount x (List.mem_cons_of_mem r hx)
    by_cases hm : r.id = id
    · show (if (refBump r).id = id then _ else _) = _
      rw [if_pos (show (refBump r).id = id from hm)]
      simp [bumpFirstById, scanCountById, List.find?, hm]
    · show (if (refBump r).id = id then _ else _) = _
      rw [if_neg (show ¬(refBump r).id = id from hm)]
      rw [vreader_free_refBump r hr, ih hrest]
      simp [bumpFirstById, scanCountById, List.find?, hm]

/-- Claim C8: `vreader_get_reader_by_id` on the unassigned sentinel
`(vreader_id_t)-1` returns absent immediately, with zero entries scanned;
on any other id, over a registry whose entries hold live references, it
returns a newly acquired counted reference (count incremented by one) to
the first reader in registry order whose id matches — absent when none
does — leaving every other entry's count unchanged and stopping at the
first match. -/
theorem vreader_get_reader_by_id_spec (regs : List VReaderObj) (id : Int)
    (hid : id ≠ -1) (hcount : ∀ r ∈ regs, 1 ≤ r.referenceCount) :
    vreader_get_reader_by_id regs (-1) = (none, regs, 0) ∧
    vreader_get_reader_by_id regs id =
      ((regs.find? fun r => decide (r.id = id)).map refBump,
        bumpFirstById id regs, scanCountById id regs) := by
  constructor
  · simp [vreader_get_reader_by_id]
  · rw [vreader_get_reader_by_id, if_neg hid]
    exact vreader_get_reader_by_id_loop_spec regs id hcount

/-- Claim C8 witness: looking up id 5 in the concrete registry `regsW`
skips the unmatched reader, returns the first of the two id-5 readers with
its count bumped, and scans two entries; the sentinel returns absent with
nothing scanned. -/
theorem vreader_get_reader_by_id_spec_witness :
    (5 : Int) ≠ -1 ∧ (∀ r ∈ regsW, 1 ≤ r.referenceCount) ∧
    (vreader_get_reader_by_id regsW (-1) = (none, regsW, 0) ∧
      vreader_get_reader_by_id regsW 5 =
        ((regsW.find? fun r => decide (r.id = 5)).map refBump,
          bumpFirstById 5 regsW, scanCountById 5 regsW)) :=
  ⟨by decide, by decide, vreader_get_reader_by_id_spec regsW 5 (by decide) (by decide)⟩

/-- A by-name scan over a registry that contains a reader created without a
name, when no earlier entry matches the query, reaches the absent name and
dereferences it (the `strcmp` null-pointer fault), instead of skipping the
entry or returning absent. -/
theorem vreader_get_reader_by_name_loop_fault : ∀ (regs : List VReaderObj) (q : String),
    (∃ r ∈ regs, r.name = none) → (∀ r ∈ regs, r.name ≠ some q) →
    vreader_get_reader_by_name_loop q regs = .error () := by
  intro regs q
  induction regs with
  | nil =>
    intro h1 _
    rcases h1 with ⟨r, hr, -⟩
    exact absurd hr (List.not_mem_nil r)
  | cons r rest ih =>
    intro h1 h2
    cases hname : r.name with
    | none =>
      show (match (refBump r).name with
        | none => Except.error ()
        | some s => if s = q then Except.ok (some (refBump r))
            else vreader_get_reader_by_name_loop q rest) = Except.error ()
      rw [show (refBump r).name = r.name from rfl, hname]
    | some s =>
      have hs : ¬s = q := by
        intro he
        exact h2 r (List.mem_cons_self r rest) (by rw [hname, he])
      show (match (refBump r).name with
        | none => Except.error ()
        | some s => if s = q then Except.ok (some (refBump r))
            else vreader_get_reader_by_name_loop q rest) = Except.error ()
      rw [show (refBump r).name = r.name from rfl, hname]
      show (if s = q then Except.ok (some (refBump r))
          else vreader_get_reader_by_name_loop q rest) = Except.error ()
      rw [if_neg hs]
      refine ih ?_ ?_
      · rcases h1 with ⟨x, hx, hnx⟩
        rcases List.mem_cons.mp hx with hxr | hxrest
        · rw [hxr, hname] at hnx; cases hnx
        · exact ⟨x, hxrest, hnx⟩
      · exact fun x hx => h2 x (List.mem_cons_of_mem r hx)

/-- Claim C10: `vreader_new` with no name stores an absent name, and
`vreader_get_reader_by_name` is total only when every registered reader has
a name: for a registry containing an absent-named reader (and no earlier
entry matching the query), the scan dereferences the absent name — a
fault — instead of skipping the entry or returning absent. -/
theorem vreader_get_reader_by_name_null_name (regs : List VReaderObj) (q : String)
    (h1 : ∃ r ∈ regs, r.name = none) (h2 : ∀ r ∈ regs, r.name ≠ some q) :
    (vreader_new none 0 false).name = none ∧
    vreader_get_reader_by_name regs q = .error () :=
  ⟨rfl, vreader_get_reader_by_name_loop_fault regs q h1 h2⟩

/-- Claim C10 witness: the one-entry registry holding a reader created
without a name faults on any by-name lookup. -/
theorem vreader_get_reader_by_name_null_name_witness :
    (∃ r ∈ regsNoName, r.name = none) ∧ (∀ r ∈ regsNoName, r.name ≠ some "x") ∧
    ((vreader_new none 0 false).name = none ∧
      vreader_get_reader_by_name regsNoName "x" = .error ()) :=
  ⟨by decide, by decide,
    vreader_get_reader_by_name_null_name regsNoName "x" (by decide) (by decide)⟩

end VReaderModel
